import Mathlib

/-!
Verification of the mode-dispatch and capability layer of the
kubernetes-router HTTP API (src/api/api.go).

The embedding models each HTTP handler of RouterAPI as a pure function from
the decoded request data to a result consisting of:
  - the final state of the HTTP response writer (net/http semantics: the
    first WriteHeader call commits the status; later calls are no-ops; a
    Write with no committed status commits 200),
  - the Go return value of the handler (nil, an httpError value, a plain
    error message, or a runtime panic from a failed interface assertion),
  - the trace of Provider (router.Service) method invocations, in order.

A Provider is modelled as a record of response functions: the dispatcher
under verification treats it as an opaque collaborator, so each method is an
arbitrary function chosen by the theorem's quantifiers.  Optional
capabilities (TLS, CNAME, Healthcheck) are Option-valued fields: a Go
dynamic interface check succeeds exactly when the field is populated.
Go errors are modelled by their message string; Go maps by association
lists.
-/

namespace KubeRouter

/-- Instance identity: router.InstanceID, fields AppName and InstanceName. -/
structure InstanceID where
  AppName : String
  InstanceName : String
deriving DecidableEq

/-- Backend creation options: router.Opts fields used by the dispatcher
(Domain, Route, and the header-seeded option list). -/
structure Opts where
  Domain : String
  Route : String
  HeaderOpts : List String
deriving DecidableEq

/-- Modelled from the spec: router.CertData (the router package is not in
src/); a CertificateSlot "holds certificate material", so the material is one
opaque blob. -/
structure CertData where
  material : String
deriving DecidableEq

/-- Modelled from the spec: RouteUpdateRequest.ExtraData (the router package
is not in src/) is "an opaque payload passed through to the Provider". -/
structure ExtraData where
  blob : String
deriving DecidableEq

/-- router.RoutesRequestData; the field pfx models the Go field named
Prefix (the route-set selector, empty meaning the default route set). -/
structure RoutesRequestData where
  pfx : String
  extraData : ExtraData
deriving DecidableEq

/-- The body of a swap request (anonymous struct swapReq in the source). -/
structure SwapReq where
  Target : String
deriving DecidableEq

/-- httpError value carried in a handler's returned error. -/
structure HttpError where
  Status : Nat
  Body : String
deriving DecidableEq

/-- One recorded Provider (router.Service) method invocation. -/
inductive ProviderCall where
  | create (id : InstanceID) (opts : Opts)
  | remove (id : InstanceID)
  | update (id : InstanceID) (extraData : ExtraData)
  | getAddresses (id : InstanceID)
  | swap (src dst : InstanceID)
  | supportedOptions
  | addCertificate (id : InstanceID) (certName : String) (cert : CertData)
  | getCertificate (id : InstanceID) (certName : String)
  | removeCertificate (id : InstanceID) (certName : String)
  | setCname (id : InstanceID) (cname : String)
  | getCnames (id : InstanceID)
  | unsetCname (id : InstanceID) (cname : String)
  | healthcheck (mode : String)
deriving DecidableEq

/-- Optional TLS capability: router.ServiceTLS methods as response
functions (an error is modelled by its message). -/
structure ServiceTLS where
  addCertificate : InstanceID → String → CertData → Option String
  getCertificate : InstanceID → String → Except String CertData
  removeCertificate : InstanceID → String → Option String

/-- Optional CNAME capability: router.ServiceCNAME methods. -/
structure ServiceCNAME where
  setCname : InstanceID → String → Option String
  getCnames : InstanceID → Except String (List String)
  unsetCname : InstanceID → String → Option String

/-- A Provider: router.Service base methods plus optional capabilities.
A populated Option field means the Go dynamic interface check succeeds.
healthcheck = some r means the Provider implements HealthcheckableService
and its Healthcheck() returns r (none for success, some msg for an error). -/
structure Service where
  create : InstanceID → Opts → Option String
  remove : InstanceID → Option String
  update : InstanceID → ExtraData → Option String
  getAddresses : InstanceID → Except String (List String)
  swap : InstanceID → InstanceID → Option String
  supportedOptions : List (String × String)
  tls : Option ServiceTLS
  cname : Option ServiceCNAME
  healthcheck : Option (Option String)

/-- net/http response writer state: a committed status (none until the
first WriteHeader or Write) and the accumulated body. -/
structure RespWriter where
  status : Option Nat
  body : String
deriving DecidableEq

/-- WriteHeader: commits the status only if none is committed yet; a second
call is a no-op (net/http "superfluous WriteHeader" behaviour). -/
def RespWriter.writeHeader (w : RespWriter) (code : Nat) : RespWriter :=
  match w.status with
  | some _ => w
  | none => { w with status := some code }

/-- Write: commits status 200 if none is committed, and appends to the body. -/
def RespWriter.write (w : RespWriter) (s : String) : RespWriter :=
  { status := some (w.status.getD 200), body := w.body ++ s }

/-- The writer at the start of a handler. -/
def w0 : RespWriter := { status := none, body := "" }

/-- A handler's Go return value: nil, an httpError, a plain error (decode
failures, Provider errors), or a runtime panic (failed single-value
interface assertion such as svc.(router.ServiceTLS) on a Provider without
that capability). -/
inductive Ret where
  | ok
  | httpErr (e : HttpError)
  | errMsg (msg : String)
  | panicked
deriving DecidableEq

/-- Lift a Provider method's Option-error result to a handler return. -/
def retOfErr : Option String → Ret
  | none => Ret.ok
  | some e => Ret.errMsg e

/-- Full outcome of one handler run. -/
structure HandlerResult where
  w : RespWriter
  ret : Ret
  calls : List ProviderCall
deriving DecidableEq

/-- RouterAPI: the default mode name and the mode registry
(map[string]router.Service, modelled as an association list). -/
structure RouterAPI where
  DefaultMode : String
  IngressServices : List (String × Service)

/-- Mode resolution (func (a *RouterAPI) ingressService): an empty mode is
replaced by the default mode, then the registry is consulted; a missing
entry yields httpError{Status: 404}. -/
def RouterAPI.ingressService (a : RouterAPI) (mode : String) : Except HttpError Service :=
  let m := if mode = "" then a.DefaultMode else mode
  match a.IngressServices.lookup m with
  | some svc => Except.ok svc
  | none => Except.error { Status := 404, Body := "" }

/-- Instance identity (func instanceID): AppName from the name path
variable, InstanceName from the X-Router-Instance header (empty if absent). -/
def instanceID (name instHeader : String) : InstanceID :=
  { AppName := name, InstanceName := instHeader }

/-- Response payload of getBackend (struct getBackendResponse). -/
structure GetBackendResponse where
  Address : String
  Addresses : List String
deriving DecidableEq

/-- getBackend: resolve the Provider, call GetAddresses, and report the
address list (Address is the first element when the list is non-empty).
JSON serialisation to the writer is modelled by returning the payload. -/
def RouterAPI.getBackend (a : RouterAPI) (mode name instHeader : String) :
    HandlerResult × Option GetBackendResponse :=
  match a.ingressService mode with
  | Except.error e => (⟨w0, Ret.httpErr e, []⟩, none)
  | Except.ok svc =>
    let id := instanceID name instHeader
    match svc.getAddresses id with
    | Except.error e => (⟨w0, Ret.errMsg e, [ProviderCall.getAddresses id]⟩, none)
    | Except.ok addrs =>
      (⟨w0, Ret.ok, [ProviderCall.getAddresses id]⟩,
        some { Address := addrs.headD "", Addresses := addrs })

/-- The Route-defaulting step of addBackend: after the body is decoded,
if len(Domain) > 0 and len(Route) == 0, Route is set to "/". -/
def normalizeOpts (o : Opts) : Opts :=
  if 0 < o.Domain.length ∧ o.Route.length = 0 then { o with Route := "/" } else o

/-- addBackend: the body argument is the result of decoding the request
body over the header-seeded router.Opts value (a decode failure is the
error path before any Provider interaction).  After the Route default is
applied, the Provider is resolved and Create is invoked. -/
def RouterAPI.addBackend (a : RouterAPI) (mode name instHeader : String)
    (body : Except String Opts) : HandlerResult :=
  match body with
  | Except.error e => ⟨w0, Ret.errMsg e, []⟩
  | Except.ok o0 =>
    let o := normalizeOpts o0
    match a.ingressService mode with
    | Except.error e => ⟨w0, Ret.httpErr e, []⟩
    | Except.ok svc =>
      let id := instanceID name instHeader
      ⟨w0, retOfErr (svc.create id o), [ProviderCall.create id o]⟩

/-- updateBackend is a no-op. -/
def RouterAPI.updateBackend (_ : RouterAPI) : HandlerResult :=
  ⟨w0, Ret.ok, []⟩

/-- removeBackend: resolve the Provider and invoke Remove. -/
def RouterAPI.removeBackend (a : RouterAPI) (mode name instHeader : String) : HandlerResult :=
  match a.ingressService mode with
  | Except.error e => ⟨w0, Ret.httpErr e, []⟩
  | Except.ok svc =>
    let id := instanceID name instHeader
    ⟨w0, retOfErr (svc.remove id), [ProviderCall.remove id]⟩

/-- addRoutes: decode the body; when the route-set selector is non-empty,
return nil at once ("Do nothing for all prefixes, except the default one"),
before the Provider is even resolved; otherwise resolve and invoke
Update(id, ExtraData). -/
def RouterAPI.addRoutes (a : RouterAPI) (mode name instHeader : String)
    (body : Except String RoutesRequestData) : HandlerResult :=
  match body with
  | Except.error e => ⟨w0, Ret.errMsg e, []⟩
  | Except.ok d =>
    if d.pfx ≠ "" then ⟨w0, Ret.ok, []⟩
    else
      match a.ingressService mode with
      | Except.error e => ⟨w0, Ret.httpErr e, []⟩
      | Except.ok svc =>
        let id := instanceID name instHeader
        ⟨w0, retOfErr (svc.update id d.extraData), [ProviderCall.update id d.extraData]⟩

/-- removeRoutes is a no-op. -/
def RouterAPI.removeRoutes (_ : RouterAPI) : HandlerResult :=
  ⟨w0, Ret.ok, []⟩

/-- Response payload of getRoutes. -/
structure RoutesResp where
  Addresses : List String
deriving DecidableEq

/-- getRoutes: encodes an empty response struct; no Provider is resolved
and no Provider method is called. -/
def RouterAPI.getRoutes (_ : RouterAPI) (_ _ _ : String) : HandlerResult × RoutesResp :=
  (⟨w0, Ret.ok, []⟩, { Addresses := [] })

/-- swap: a decode failure returns the fixed "error parsing request" error;
an empty Target returns httpError{Body: "empty target", Status: 400};
otherwise the Provider is resolved and Swap(src, dst) is invoked with
dst = {AppName: Target, InstanceName: src.InstanceName}. -/
def RouterAPI.swap (a : RouterAPI) (mode name instHeader : String)
    (body : Except String SwapReq) : HandlerResult :=
  match body with
  | Except.error _ => ⟨w0, Ret.errMsg "error parsing request", []⟩
  | Except.ok req =>
    if req.Target = "" then
      ⟨w0, Ret.httpErr { Status := 400, Body := "empty target" }, []⟩
    else
      match a.ingressService mode with
      | Except.error e => ⟨w0, Ret.httpErr e, []⟩
      | Except.ok svc =>
        let src := instanceID name instHeader
        let dst : InstanceID := { AppName := req.Target, InstanceName := src.InstanceName }
        ⟨w0, retOfErr (svc.swap src dst), [ProviderCall.swap src dst]⟩

/-- Go map read with the zero value for a missing key. -/
def goMapGetD (m : List (String × String)) (k : String) : String :=
  match m.lookup k with
  | some v => v
  | none => ""

/-- The merge loop of the info handler: every key of the Provider's
SupportedOptions appears; an empty Provider description is replaced by the
global default for that key (empty again if the defaults lack the key). -/
def infoMap (opts allOpts : List (String × String)) : List (String × String) :=
  opts.map (fun kv => (kv.1, if kv.2 = "" then goMapGetD allOpts kv.1 else kv.2))

/-- info: resolve the Provider, read SupportedOptions() and merge it with
the global defaults.  allOpts stands for router.DescribedOptions(), whose
definition lives in the router package (not in src/), so it is a parameter. -/
def RouterAPI.info (a : RouterAPI) (mode : String) (allOpts : List (String × String)) :
    HandlerResult × Option (List (String × String)) :=
  match a.ingressService mode with
  | Except.error e => (⟨w0, Ret.httpErr e, []⟩, none)
  | Except.ok svc =>
    (⟨w0, Ret.ok, [ProviderCall.supportedOptions]⟩,
      some (infoMap svc.supportedOptions allOpts))

/-- The sequential loop of Healthcheck over the registry: for each Provider
implementing HealthcheckableService, Healthcheck() is invoked; each failure
appends a labelled message.  Returns the failure messages and the
invocation trace, in registry order. -/
def healthcheckLoop : List (String × Service) → List String × List ProviderCall
  | [] => ([], [])
  | (mode, svc) :: rest =>
    let r := healthcheckLoop rest
    match svc.healthcheck with
    | none => r
    | some none => (r.1, ProviderCall.healthcheck mode :: r.2)
    | some (some e) =>
      (("failed to check IngressService " ++ mode ++ ": " ++ e) :: r.1,
        ProviderCall.healthcheck mode :: r.2)

/-- Healthcheck: run the loop over every registered mode; with at least one
failure, write status 500 and the messages joined by " - "; with none,
write the fixed "WORKING" body (committing status 200). -/
def RouterAPI.Healthcheck (a : RouterAPI) : RespWriter × List ProviderCall :=
  let r := healthcheckLoop a.IngressServices
  if 0 < r.1.length then
    ((w0.writeHeader 500).write (String.intercalate " - " r.1), r.2)
  else
    (w0.write "WORKING", r.2)

/-- addCertificate: decode the body, resolve the Provider, then perform the
single-value assertion svc.(router.ServiceTLS): on a Provider without the
TLS capability this panics; otherwise AddCertificate is invoked. -/
def RouterAPI.addCertificate (a : RouterAPI) (mode name instHeader certName : String)
    (body : Except String CertData) : HandlerResult :=
  match body with
  | Except.error e => ⟨w0, Ret.errMsg e, []⟩
  | Except.ok cert =>
    match a.ingressService mode with
    | Except.error e => ⟨w0, Ret.httpErr e, []⟩
    | Except.ok svc =>
      match svc.tls with
      | none => ⟨w0, Ret.panicked, []⟩
      | some t =>
        let id := instanceID name instHeader
        ⟨w0, retOfErr (t.addCertificate id certName cert),
          [ProviderCall.addCertificate id certName cert]⟩

/-- getCertificate: resolve, assert TLS (panic when absent), invoke
GetCertificate; on a Provider error the handler writes status 404 and
returns the error, otherwise the certificate is the payload. -/
def RouterAPI.getCertificate (a : RouterAPI) (mode name instHeader certName : String) :
    HandlerResult × Option CertData :=
  match a.ingressService mode with
  | Except.error e => (⟨w0, Ret.httpErr e, []⟩, none)
  | Except.ok svc =>
    match svc.tls with
    | none => (⟨w0, Ret.panicked, []⟩, none)
    | some t =>
      let id := instanceID name instHeader
      match t.getCertificate id certName with
      | Except.error e =>
        (⟨w0.writeHeader 404, Ret.errMsg e, [ProviderCall.getCertificate id certName]⟩, none)
      | Except.ok cert =>
        (⟨w0, Ret.ok, [ProviderCall.getCertificate id certName]⟩, some cert)

/-- removeCertificate: resolve, assert TLS (panic when absent), invoke
RemoveCertificate; on a Provider error write status 404 and return it. -/
def RouterAPI.removeCertificate (a : RouterAPI) (mode name instHeader certName : String) :
    HandlerResult :=
  match a.ingressService mode with
  | Except.error e => ⟨w0, Ret.httpErr e, []⟩
  | Except.ok svc =>
    match svc.tls with
    | none => ⟨w0, Ret.panicked, []⟩
    | some t =>
      let id := instanceID name instHeader
      match t.removeCertificate id certName with
      | none => ⟨w0, Ret.ok, [ProviderCall.removeCertificate id certName]⟩
      | some e => ⟨w0.writeHeader 404, Ret.errMsg e, [ProviderCall.removeCertificate id certName]⟩

/-- Substring test on character lists: hasInit decides whether the first
list is an initial segment of the second. -/
def hasInit : List Char → List Char → Bool
  | [], _ => true
  | _ :: _, [] => false
  | a :: as, b :: bs => a = b && hasInit as bs

/-- hasSub decides whether the first list occurs contiguously in the second. -/
def hasSub (sub : List Char) : List Char → Bool
  | [] => sub.isEmpty
  | b :: bs => hasInit sub (b :: bs) || hasSub sub bs

/-- strings.Contains(s, sub). -/
def goContains (s sub : String) : Bool :=
  hasSub sub.data s.data

/-- setCname: resolve, assert CNAME (panic when absent), invoke SetCname.
On a Provider error, when the message contains "exists" the handler first
writes status 409; it then writes status 404 unconditionally — under
net/http first-write-wins semantics the committed status is 409 in the
first case and 404 otherwise — and returns the error. -/
def RouterAPI.setCname (a : RouterAPI) (mode name instHeader cname : String) : HandlerResult :=
  match a.ingressService mode with
  | Except.error e => ⟨w0, Ret.httpErr e, []⟩
  | Except.ok svc =>
    match svc.cname with
    | none => ⟨w0, Ret.panicked, []⟩
    | some c =>
      let id := instanceID name instHeader
      match c.setCname id cname with
      | none => ⟨w0, Ret.ok, [ProviderCall.setCname id cname]⟩
      | some e =>
        let w1 := if goContains e "exists" then w0.writeHeader 409 else w0
        ⟨w1.writeHeader 404, Ret.errMsg e, [ProviderCall.setCname id cname]⟩

/-- getCnames: resolve, assert CNAME (panic when absent), invoke GetCnames
and report the list as the payload. -/
def RouterAPI.getCnames (a : RouterAPI) (mode name instHeader : String) :
    HandlerResult × Option (List String) :=
  match a.ingressService mode with
  | Except.error e => (⟨w0, Ret.httpErr e, []⟩, none)
  | Except.ok svc =>
    match svc.cname with
    | none => (⟨w0, Ret.panicked, []⟩, none)
    | some c =>
      let id := instanceID name instHeader
      match c.getCnames id with
      | Except.error e => (⟨w0, Ret.errMsg e, [ProviderCall.getCnames id]⟩, none)
      | Except.ok cnames => (⟨w0, Ret.ok, [ProviderCall.getCnames id]⟩, some cnames)

/-- unsetCname: resolve, assert CNAME (panic when absent), invoke
UnsetCname and return its result. -/
def RouterAPI.unsetCname (a : RouterAPI) (mode name instHeader cname : String) : HandlerResult :=
  match a.ingressService mode with
  | Except.error e => ⟨w0, Ret.httpErr e, []⟩
  | Except.ok svc =>
    match svc.cname with
    | none => ⟨w0, Ret.panicked, []⟩
    | some c =>
      let id := instanceID name instHeader
      ⟨w0, retOfErr (c.unsetCname id cname), [ProviderCall.unsetCname id cname]⟩

/-- supportTLS: resolve and probe the TLS capability with a comma-ok
dynamic check (no panic, no mutation): absent writes 404 and a fixed body,
present writes "OK". -/
def RouterAPI.supportTLS (a : RouterAPI) (mode : String) : HandlerResult :=
  match a.ingressService mode with
  | Except.error e => ⟨w0, Ret.httpErr e, []⟩
  | Except.ok svc =>
    match svc.tls with
    | none => ⟨(w0.writeHeader 404).write "No TLS Capabilities", Ret.ok, []⟩
    | some _ => ⟨w0.write "OK", Ret.ok, []⟩

/-- supportCNAME: resolve and probe the CNAME capability with a comma-ok
dynamic check: absent writes 404 and a fixed body, present writes "OK". -/
def RouterAPI.supportCNAME (a : RouterAPI) (mode : String) : HandlerResult :=
  match a.ingressService mode with
  | Except.error e => ⟨w0, Ret.httpErr e, []⟩
  | Except.ok svc =>
    match svc.cname with
    | none => ⟨(w0.writeHeader 404).write "No CNAME Capabilities", Ret.ok, []⟩
    | some _ => ⟨w0.write "OK", Ret.ok, []⟩

/-- The failure messages Healthcheck collects, one per registered Provider
that implements the capability and whose check errors, in registry order. -/
def failuresOf (svcs : List (String × Service)) : List String :=
  svcs.filterMap (fun ms =>
    match ms.2.healthcheck with
    | some (some e) => some ("failed to check IngressService " ++ ms.1 ++ ": " ++ e)
    | _ => none)

/-- The Healthcheck invocations performed: one per registered Provider that
implements the capability, in registry order. -/
def checkedOf (svcs : List (String × Service)) : List ProviderCall :=
  svcs.filterMap (fun ms =>
    match ms.2.healthcheck with
    | none => none
    | some _ => some (ProviderCall.healthcheck ms.1))

/-- A sample TLS capability used to instantiate theorems on concrete input. -/
def demoTLS : ServiceTLS :=
  { addCertificate := fun _ _ _ => none,
    getCertificate := fun _ _ => Except.error "certificate not found",
    removeCertificate := fun _ _ => none }

/-- A sample CNAME capability whose SetCname fails with an "exists" message
for the name "dup" and with an unrelated message for every other name. -/
def demoCNAME : ServiceCNAME :=
  { setCname := fun _ cn =>
      if cn = "dup" then some "cname already exists" else some "backend not found",
    getCnames := fun _ => Except.ok [],
    unsetCname := fun _ _ => none }

/-- A sample full-capability Provider with a healthy Healthcheck. -/
def demoSvc : Service :=
  { create := fun _ _ => none,
    remove := fun _ => none,
    update := fun _ _ => none,
    getAddresses := fun _ => Except.ok ["10.0.0.1"],
    swap := fun _ _ => none,
    supportedOptions := [("opt1", ""), ("opt2", "custom")],
    tls := some demoTLS,
    cname := some demoCNAME,
    healthcheck := some none }

/-- A sample Provider with no optional capability at all. -/
def demoBareSvc : Service :=
  { create := fun _ _ => none,
    remove := fun _ => none,
    update := fun _ _ => none,
    getAddresses := fun _ => Except.ok [],
    swap := fun _ _ => none,
    supportedOptions := [],
    tls := none,
    cname := none,
    healthcheck := none }

/-- A sample Provider whose Healthcheck fails with message "boom". -/
def demoFailSvc : Service :=
  { create := fun _ _ => none,
    remove := fun _ => none,
    update := fun _ _ => none,
    getAddresses := fun _ => Except.ok [],
    swap := fun _ _ => none,
    supportedOptions := [],
    tls := none,
    cname := none,
    healthcheck := some (some "boom") }

/-- A registry with one mode "v1" holding the full-capability Provider. -/
def demoAPI : RouterAPI :=
  { DefaultMode := "v1", IngressServices := [("v1", demoSvc)] }

/-- A registry whose only Provider lacks every optional capability. -/
def demoBareAPI : RouterAPI :=
  { DefaultMode := "v1", IngressServices := [("v1", demoBareSvc)] }

/-- A registry holding one healthy and one failing health-checkable
Provider plus one Provider without the capability. -/
def demoFailAPI : RouterAPI :=
  { DefaultMode := "m1",
    IngressServices := [("m1", demoSvc), ("m2", demoFailSvc), ("m3", demoBareSvc)] }

lemma healthcheckLoop_eq (svcs : List (String × Service)) :
    healthcheckLoop svcs = (failuresOf svcs, checkedOf svcs) := by
  induction svcs with
  | nil => rfl
  | cons hd tl ih =>
    cases hd with
    | mk mode svc =>
      cases h : svc.healthcheck with
      | none =>
        simp [healthcheckLoop, failuresOf, checkedOf, List.filterMap_cons, h, ih]
      | some res =>
        cases res with
        | none =>
          simp [healthcheckLoop, failuresOf, checkedOf, List.filterMap_cons, h, ih]
        | some e =>
          simp [healthcheckLoop, failuresOf, checkedOf, List.filterMap_cons, h, ih]

lemma ingressService_ok_iff (a : RouterAPI) (m : String) (svc : Service) :
    a.ingressService m = Except.ok svc ↔
      a.IngressServices.lookup (if m = "" then a.DefaultMode else m) = some svc := by
  cases hl : a.IngressServices.lookup (if m = "" then a.DefaultMode else m) with
  | some s => simp [RouterAPI.ingressService, hl]
  | none => simp [RouterAPI.ingressService, hl]

lemma ingressService_absent (a : RouterAPI) (m : String)
    (hl : a.IngressServices.lookup (if m = "" then a.DefaultMode else m) = none) :
    a.ingressService m = Except.error { Status := 404, Body := "" } := by
  simp [RouterAPI.ingressService, hl]

lemma string_length_zero_iff (s : String) : s.length = 0 ↔ s = "" := by
  constructor
  · intro h
    cases s with
    | mk data =>
      cases data with
      | nil => rfl
      | cons c cs => simp [String.length] at h
  · intro h
    subst h
    rfl

lemma string_length_pos_iff (s : String) : 0 < s.length ↔ s ≠ "" := by
  rw [Nat.pos_iff_ne_zero, not_iff_not]
  exact string_length_zero_iff s

lemma normalizeOpts_default (o : Opts) (hD : o.Domain ≠ "") (hR : o.Route = "") :
    normalizeOpts o = { o with Route := "/" } := by
  have h : 0 < o.Domain.length ∧ o.Route.length = 0 :=
    ⟨(string_length_pos_iff o.Domain).mpr hD, (string_length_zero_iff o.Route).mpr hR⟩
  simp [normalizeOpts, h]

lemma normalizeOpts_keep (o : Opts) (hR : o.Route ≠ "") : normalizeOpts o = o := by
  have h : ¬ (0 < o.Domain.length ∧ o.Route.length = 0) := by
    intro hand
    exact hR ((string_length_zero_iff o.Route).mp hand.2)
  simp [normalizeOpts, h]

lemma infoMap_keys (opts allOpts : List (String × String)) :
    (infoMap opts allOpts).map Prod.fst = opts.map Prod.fst := by
  induction opts with
  | nil => rfl
  | cons hd tl ih =>
    simp [infoMap] at ih ⊢

lemma infoMap_mem_keep (opts allOpts : List (String × String)) (k v : String)
    (hm : (k, v) ∈ opts) (hv : v ≠ "") : (k, v) ∈ infoMap opts allOpts := by
  have h1 := List.mem_map_of_mem
    (fun kv : String × String => (kv.1, if kv.2 = "" then goMapGetD allOpts kv.1 else kv.2)) hm
  simpa [infoMap, hv] using h1

lemma infoMap_mem_default (opts allOpts : List (String × String)) (k : String)
    (hm : (k, "") ∈ opts) : (k, goMapGetD allOpts k) ∈ infoMap opts allOpts := by
  have h1 := List.mem_map_of_mem
    (fun kv : String × String => (kv.1, if kv.2 = "" then goMapGetD allOpts kv.1 else kv.2)) hm
  simpa [infoMap] using h1

/-- C1: a swap request whose decoded target is empty returns
httpError{Status: 400, Body: "empty target"} with zero Provider calls; with
a non-empty target T and a mode resolving to a Provider svc, exactly one
Provider call is made, namely Swap(src, dst) with src the request's
instance identity and dst = {AppName: T, InstanceName: src.InstanceName},
and the handler returns svc.Swap's result. -/
theorem swap_contract (a : RouterAPI) (mode name instHeader T : String) :
    a.swap mode name instHeader (Except.ok { Target := "" }) =
      { w := w0, ret := Ret.httpErr { Status := 400, Body := "empty target" }, calls := [] } ∧
    (T ≠ "" → ∀ svc : Service, a.ingressService mode = Except.ok svc →
      a.swap mode name instHeader (Except.ok { Target := T }) =
        { w := w0,
          ret := retOfErr (svc.swap (instanceID name instHeader)
            { AppName := T, InstanceName := (instanceID name instHeader).InstanceName }),
          calls := [ProviderCall.swap (instanceID name instHeader)
            { AppName := T, InstanceName := (instanceID name instHeader).InstanceName }] }) := by
  constructor
  · simp [RouterAPI.swap]
  · intro hT svc hres
    simp [RouterAPI.swap, hT, hres]

/-- Witness for C1 on a concrete registry, source and target. -/
theorem swap_contract_witness :
    demoAPI.swap "v1" "app" "web" (Except.ok { Target := "" }) =
      { w := w0, ret := Ret.httpErr { Status := 400, Body := "empty target" }, calls := [] } ∧
    demoAPI.swap "v1" "app" "web" (Except.ok { Target := "other" }) =
      { w := w0, ret := Ret.ok,
        calls := [ProviderCall.swap { AppName := "app", InstanceName := "web" }
          { AppName := "other", InstanceName := "web" }] } := by
  have h := swap_contract demoAPI "v1" "app" "web" "other"
  refine ⟨h.1, ?_⟩
  have h2 := h.2 (by decide) demoSvc (by rfl)
  simpa [demoSvc, instanceID, retOfErr] using h2

/-- C2 (failing input): the code does not fail Unsupported/NotFound when
the resolved Provider lacks the TLS capability — the single-value interface
assertion svc.(router.ServiceTLS) panics.  Evaluated on a registry whose
only Provider has no TLS capability: the handler run ends in a panic (a
crash), before any TLS method could be invoked. -/
theorem addCertificate_no_tls_panics :
    demoBareAPI.addCertificate "v1" "app" "" "crt" (Except.ok { material := "pem" }) =
      { w := w0, ret := Ret.panicked, calls := [] } := by
  rfl

/-- C3: when SetCname on the resolved Provider fails with error message e,
the committed response status is 409 (Conflict) if e contains "exists"
(the code's "already exists" classification), and 404 (NotFound) for any
other Provider error. -/
theorem setCname_status (a : RouterAPI) (mode name instHeader cname : String)
    (svc : Service) (c : ServiceCNAME) (e : String)
    (hres : a.ingressService mode = Except.ok svc) (hcap : svc.cname = some c)
    (herr : c.setCname (instanceID name instHeader) cname = some e) :
    (goContains e "exists" = true →
      (a.setCname mode name instHeader cname).w = { status := some 409, body := "" }) ∧
    (goContains e "exists" = false →
      (a.setCname mode name instHeader cname).w = { status := some 404, body := "" }) := by
  constructor <;> intro hcls <;>
    simp [RouterAPI.setCname, hres, hcap, herr, hcls, RespWriter.writeHeader, w0]

/-- Witness for C3: the demo CNAME capability fails with "cname already
exists" for the name "dup" (committed status 409) and with "backend not
found" for the name "other" (committed status 404). -/
theorem setCname_status_witness :
    (demoAPI.setCname "v1" "app" "" "dup").w = { status := some 409, body := "" } ∧
    (demoAPI.setCname "v1" "app" "" "other").w = { status := some 404, body := "" } := by
  have h1 := (setCname_status demoAPI "v1" "app" "" "dup" demoSvc demoCNAME
    "cname already exists" (by rfl) (by rfl) (by rfl)).1 (by decide)
  have h2 := (setCname_status demoAPI "v1" "app" "" "other" demoSvc demoCNAME
    "backend not found" (by rfl) (by rfl) (by rfl)).2 (by decide)
  exact ⟨h1, h2⟩

/-- C4: addRoutes with a non-empty route-set selector returns nil with zero
Provider calls (the Provider is not even resolved); with the empty selector
and a mode resolving to svc, it performs exactly the call
Update(id, ExtraData) and returns its result. -/
theorem addRoutes_filter (a : RouterAPI) (mode name instHeader p : String) (ed : ExtraData) :
    (p ≠ "" → a.addRoutes mode name instHeader (Except.ok { pfx := p, extraData := ed }) =
      { w := w0, ret := Ret.ok, calls := [] }) ∧
    (∀ svc : Service, a.ingressService mode = Except.ok svc →
      a.addRoutes mode name instHeader (Except.ok { pfx := "", extraData := ed }) =
        { w := w0, ret := retOfErr (svc.update (instanceID name instHeader) ed),
          calls := [ProviderCall.update (instanceID name instHeader) ed] }) := by
  constructor
  · intro hp
    simp [RouterAPI.addRoutes, hp]
  · intro svc hres
    simp [RouterAPI.addRoutes, hres]

/-- Witness for C4 with selector "custom" (no-op) and the empty selector
(one Update call). -/
theorem addRoutes_filter_witness :
    demoAPI.addRoutes "v1" "app" "" (Except.ok { pfx := "custom", extraData := { blob := "x" } }) =
      { w := w0, ret := Ret.ok, calls := [] } ∧
    demoAPI.addRoutes "v1" "app" "" (Except.ok { pfx := "", extraData := { blob := "x" } }) =
      { w := w0, ret := Ret.ok,
        calls := [ProviderCall.update { AppName := "app", InstanceName := "" } { blob := "x" }] } := by
  have h := addRoutes_filter demoAPI "v1" "app" "" "custom" { blob := "x" }
  refine ⟨h.1 (by decide), ?_⟩
  have h2 := h.2 demoSvc (by rfl)
  simpa [demoSvc, instanceID, retOfErr] using h2

/-- C5: resolving the empty mode equals resolving the configured default
mode; a non-empty mode name absent from the registry fails with
httpError{Status: 404}; and a successful resolution returns exactly the
registry entry for the substituted name — resolution is a pure lookup (the
embedding is a function of the immutable registry, so it has no side
effects on it). -/
theorem ingressService_resolve (a : RouterAPI) (m : String) :
    a.ingressService "" = a.ingressService a.DefaultMode ∧
    (m ≠ "" → a.IngressServices.lookup m = none →
      a.ingressService m = Except.error { Status := 404, Body := "" }) ∧
    (∀ svc : Service, a.ingressService m = Except.ok svc →
      a.IngressServices.lookup (if m = "" then a.DefaultMode else m) = some svc) := by
  refine ⟨?_, ?_, ?_⟩
  · simp [RouterAPI.ingressService]
  · intro hm hl
    apply ingressService_absent
    simp [hm, hl]
  · intro svc hres
    exact (ingressService_ok_iff a m svc).mp hres

/-- Witness for C5: the unknown mode "ghost" fails with 404 and the known
mode "v1" resolves to the registered Provider. -/
theorem ingressService_resolve_witness :
    demoAPI.ingressService "ghost" = Except.error { Status := 404, Body := "" } ∧
    demoAPI.IngressServices.lookup "v1" = some demoSvc := by
  refine ⟨(ingressService_resolve demoAPI "ghost").2.1 (by decide) (by rfl), ?_⟩
  have h := (ingressService_resolve demoAPI "v1").2.2 demoSvc (by rfl)
  simpa using h

/-- C6: with a mode resolving to svc, when the decoded options carry a
non-empty Domain and an empty Route, Provider.Create receives the options
with Route replaced by "/"; when the decoded options carry a non-empty
Route, Create receives them unchanged. -/
theorem addBackend_route_default (a : RouterAPI) (mode name instHeader : String)
    (o : Opts) (svc : Service) (hres : a.ingressService mode = Except.ok svc) :
    (o.Domain ≠ "" → o.Route = "" →
      a.addBackend mode name instHeader (Except.ok o) =
        { w := w0,
          ret := retOfErr (svc.create (instanceID name instHeader) { o with Route := "/" }),
          calls := [ProviderCall.create (instanceID name instHeader) { o with Route := "/" }] }) ∧
    (o.Route ≠ "" →
      a.addBackend mode name instHeader (Except.ok o) =
        { w := w0, ret := retOfErr (svc.create (instanceID name instHeader) o),
          calls := [ProviderCall.create (instanceID name instHeader) o] }) := by
  constructor
  · intro hD hR
    simp [RouterAPI.addBackend, hres, normalizeOpts_default o hD hR]
  · intro hR
    simp [RouterAPI.addBackend, hres, normalizeOpts_keep o hR]

/-- Witness for C6: Domain set with Route omitted yields Route "/"; an
explicit Route "/custom" is passed through unchanged. -/
theorem addBackend_route_default_witness :
    demoAPI.addBackend "v1" "app" ""
        (Except.ok { Domain := "ex.com", Route := "", HeaderOpts := [] }) =
      { w := w0, ret := Ret.ok,
        calls := [ProviderCall.create { AppName := "app", InstanceName := "" }
          { Domain := "ex.com", Route := "/", HeaderOpts := [] }] } ∧
    demoAPI.addBackend "v1" "app" ""
        (Except.ok { Domain := "ex.com", Route := "/custom", HeaderOpts := [] }) =
      { w := w0, ret := Ret.ok,
        calls := [ProviderCall.create { AppName := "app", InstanceName := "" }
          { Domain := "ex.com", Route := "/custom", HeaderOpts := [] }] } := by
  have h1 := (addBackend_route_default demoAPI "v1" "app" ""
    { Domain := "ex.com", Route := "", HeaderOpts := [] } demoSvc (by rfl)).1 (by decide) (by rfl)
  have h2 := (addBackend_route_default demoAPI "v1" "app" ""
    { Domain := "ex.com", Route := "/custom", HeaderOpts := [] } demoSvc (by rfl)).2 (by decide)
  constructor
  · simpa [demoSvc, instanceID, retOfErr] using h1
  · simpa [demoSvc, instanceID, retOfErr] using h2

/-- C7: with a mode resolving to svc, info reports exactly the merge of the
Provider's SupportedOptions with the global defaults: its key list is the
key list of SupportedOptions; a key with a non-empty Provider description
keeps it; a key with an empty Provider description gets the global default
for that key; a key absent from SupportedOptions is absent from the result
even when the defaults know it. -/
theorem info_merge (a : RouterAPI) (mode : String) (allOpts : List (String × String))
    (svc : Service) (hres : a.ingressService mode = Except.ok svc) :
    (a.info mode allOpts).2 = some (infoMap svc.supportedOptions allOpts) ∧
    (infoMap svc.supportedOptions allOpts).map Prod.fst = svc.supportedOptions.map Prod.fst ∧
    (∀ k v : String, (k, v) ∈ svc.supportedOptions → v ≠ "" →
      (k, v) ∈ infoMap svc.supportedOptions allOpts) ∧
    (∀ k : String, (k, "") ∈ svc.supportedOptions →
      (k, goMapGetD allOpts k) ∈ infoMap svc.supportedOptions allOpts) ∧
    (∀ k : String, k ∉ svc.supportedOptions.map Prod.fst →
      k ∉ (infoMap svc.supportedOptions allOpts).map Prod.fst) := by
  refine ⟨?_, infoMap_keys _ _, ?_, ?_, ?_⟩
  · simp [RouterAPI.info, hres]
  · intro k v hm hv
    exact infoMap_mem_keep _ _ _ _ hm hv
  · intro k hm
    exact infoMap_mem_default _ _ _ hm
  · intro k hk
    rw [infoMap_keys]
    exact hk

/-- Witness for C7 on the spec's example: Provider options
{opt1: "", opt2: "custom"} and defaults {opt1: "default1", opt3: "default3"}
merge to {opt1: "default1", opt2: "custom"}, with opt3 omitted. -/
theorem info_merge_witness :
    (demoAPI.info "v1" [("opt1", "default1"), ("opt3", "default3")]).2 =
      some [("opt1", "default1"), ("opt2", "custom")] ∧
    "opt3" ∉ (infoMap demoSvc.supportedOptions
      [("opt1", "default1"), ("opt3", "default3")]).map Prod.fst := by
  have h := info_merge demoAPI "v1" [("opt1", "default1"), ("opt3", "default3")] demoSvc (by rfl)
  refine ⟨h.1.trans (by decide), h.2.2.2.2 "opt3" (by decide)⟩

/-- C8: Healthcheck invokes the capability on exactly the registered
Providers that implement it (in registry order); with zero failures the
writer ends healthy, status 200 with the fixed body "WORKING"; with at
least one failure it ends status 500 with the "failed to check" messages
(each naming the mode and its error) joined by the fixed separator " - ". -/
theorem healthcheck_aggregate (a : RouterAPI) :
    (a.Healthcheck).2 = checkedOf a.IngressServices ∧
    (failuresOf a.IngressServices = [] →
      (a.Healthcheck).1 = { status := some 200, body := "WORKING" }) ∧
    (failuresOf a.IngressServices ≠ [] →
      (a.Healthcheck).1 =
        { status := some 500,
          body := String.intercalate " - " (failuresOf a.IngressServices) }) := by
  refine ⟨?_, ?_, ?_⟩
  · by_cases h : 0 < (failuresOf a.IngressServices).length <;>
      simp [RouterAPI.Healthcheck, healthcheckLoop_eq, h]
  · intro h0
    simp [RouterAPI.Healthcheck, healthcheckLoop_eq, h0, RespWriter.write, w0]
  · intro hne
    have hp : 0 < (failuresOf a.IngressServices).length := List.length_pos.mpr hne
    simp [RouterAPI.Healthcheck, healthcheckLoop_eq, hp,
      RespWriter.writeHeader, RespWriter.write, w0]

/-- Witness for C8: the all-healthy registry reports 200/"WORKING"; the
registry with one failing check (mode m2, error "boom") reports 500 with
exactly one "failed to check" fragment, and checks exactly the two
Providers implementing the capability. -/
theorem healthcheck_aggregate_witness :
    (demoAPI.Healthcheck).1 = { status := some 200, body := "WORKING" } ∧
    (demoFailAPI.Healthcheck).1 =
      { status := some 500, body := "failed to check IngressService m2: boom" } ∧
    (demoFailAPI.Healthcheck).2 =
      [ProviderCall.healthcheck "m1", ProviderCall.healthcheck "m2"] := by
  refine ⟨(healthcheck_aggregate demoAPI).2.1 (by decide), ?_, ?_⟩
  · exact ((healthcheck_aggregate demoFailAPI).2.2 (by decide)).trans (by decide)
  · exact ((healthcheck_aggregate demoFailAPI).1).trans (by decide)

/-- C9: getRoutes returns the empty address list and performs no Provider
call, whatever the registry, mode and instance addressing are (the model
carries all Provider state inside the registry value, over which the
statement quantifies). -/
theorem getRoutes_empty (a : RouterAPI) (mode name instHeader : String) :
    (a.getRoutes mode name instHeader).2 = { Addresses := [] } ∧
    (a.getRoutes mode name instHeader).1.calls = [] ∧
    (a.getRoutes mode name instHeader).1.ret = Ret.ok :=
  ⟨rfl, rfl, rfl⟩

/-- C10: with a mode whose substituted name is absent from the registry,
addRoutes with a non-empty selector still returns nil with zero Provider
calls (the body is decoded and the selector tested before any resolution),
while every other Provider-touching operation fails with
httpError{Status: 404} from mode resolution. -/
theorem addRoutes_unknown_mode (a : RouterAPI)
    (mode name instHeader p T cname certName : String)
    (ed : ExtraData) (o : Opts) (cert : CertData) (allOpts : List (String × String))
    (hp : p ≠ "") (hT : T ≠ "")
    (hmode : a.IngressServices.lookup (if mode = "" then a.DefaultMode else mode) = none) :
    a.addRoutes mode name instHeader (Except.ok { pfx := p, extraData := ed }) =
      { w := w0, ret := Ret.ok, calls := [] } ∧
    a.getBackend mode name instHeader =
      ({ w := w0, ret := Ret.httpErr { Status := 404, Body := "" }, calls := [] }, none) ∧
    a.addBackend mode name instHeader (Except.ok o) =
      { w := w0, ret := Ret.httpErr { Status := 404, Body := "" }, calls := [] } ∧
    a.removeBackend mode name instHeader =
      { w := w0, ret := Ret.httpErr { Status := 404, Body := "" }, calls := [] } ∧
    a.addRoutes mode name instHeader (Except.ok { pfx := "", extraData := ed }) =
      { w := w0, ret := Ret.httpErr { Status := 404, Body := "" }, calls := [] } ∧
    a.swap mode name instHeader (Except.ok { Target := T }) =
      { w := w0, ret := Ret.httpErr { Status := 404, Body := "" }, calls := [] } ∧
    a.info mode allOpts =
      ({ w := w0, ret := Ret.httpErr { Status := 404, Body := "" }, calls := [] }, none) ∧
    a.addCertificate mode name instHeader certName (Except.ok cert) =
      { w := w0, ret := Ret.httpErr { Status := 404, Body := "" }, calls := [] } ∧
    a.getCertificate mode name instHeader certName =
      ({ w := w0, ret := Ret.httpErr { Status := 404, Body := "" }, calls := [] }, none) ∧
    a.removeCertificate mode name instHeader certName =
      { w := w0, ret := Ret.httpErr { Status := 404, Body := "" }, calls := [] } ∧
    a.setCname mode name instHeader cname =
      { w := w0, ret := Ret.httpErr { Status := 404, Body := "" }, calls := [] } ∧
    a.getCnames mode name instHeader =
      ({ w := w0, ret := Ret.httpErr { Status := 404, Body := "" }, calls := [] }, none) ∧
    a.unsetCname mode name instHeader cname =
      { w := w0, ret := Ret.httpErr { Status := 404, Body := "" }, calls := [] } ∧
    a.supportTLS mode =
      { w := w0, ret := Ret.httpErr { Status := 404, Body := "" }, calls := [] } ∧
    a.supportCNAME mode =
      { w := w0, ret := Ret.httpErr { Status := 404, Body := "" }, calls := [] } := by
  have herr : a.ingressService mode = Except.error { Status := 404, Body := "" } :=
    ingressService_absent a mode hmode
  refine ⟨?_, ?_, ?_, ?_, ?_, ?_, ?_, ?_, ?_, ?_, ?_, ?_, ?_, ?_, ?_⟩
  · simp [RouterAPI.addRoutes, hp]
  · simp [RouterAPI.getBackend, herr]
  · simp [RouterAPI.addBackend, herr]
  · simp [RouterAPI.removeBackend, herr]
  · simp [RouterAPI.addRoutes, herr]
  · simp [RouterAPI.swap, hT, herr]
  · simp [RouterAPI.info, herr]
  · simp [RouterAPI.addCertificate, herr]
  · simp [RouterAPI.getCertificate, herr]
  · simp [RouterAPI.removeCertificate, herr]
  · simp [RouterAPI.setCname, herr]
  · simp [RouterAPI.getCnames, herr]
  · simp [RouterAPI.unsetCname, herr]
  · simp [RouterAPI.supportTLS, herr]
  · simp [RouterAPI.supportCNAME, herr]

/-- Witness for C10 on the demo registry with the unknown mode "ghost":
addRoutes with selector "custom" succeeds without touching any Provider
while removeBackend and swap with a valid target fail 404. -/
theorem addRoutes_unknown_mode_witness :
    demoAPI.addRoutes "ghost" "app" "" (Except.ok { pfx := "custom", extraData := { blob := "x" } }) =
      { w := w0, ret := Ret.ok, calls := [] } ∧
    demoAPI.removeBackend "ghost" "app" "" =
      { w := w0, ret := Ret.httpErr { Status := 404, Body := "" }, calls := [] } ∧
    demoAPI.swap "ghost" "app" "" (Except.ok { Target := "other" }) =
      { w := w0, ret := Ret.httpErr { Status := 404, Body := "" }, calls := [] } := by
  have h := addRoutes_unknown_mode demoAPI "ghost" "app" "" "custom" "other" "cn" "crt"
    { blob := "x" } { Domain := "", Route := "", HeaderOpts := [] } { material := "pem" }
    [] (by decide) (by decide) (by rfl)
  exact ⟨h.1, h.2.2.2.1, h.2.2.2.2.2.1⟩

end KubeRouter
